import Mathlib

/-!
Verification of the viteset-client-go polling client (`src/client.go`).

The Go code is shallowly embedded: the `Client` struct becomes a Lean
structure, `Subscribe` / `Cancel` / `Active` become pure functions on that
structure (the channel, ticker and goroutine are recorded as explicit fields
of the result), and the body of the polling goroutine becomes a step
function `loopBody` threaded over a list of fetch results.  Byte slices
(`[]byte`) are modelled as `String` (they are only ever compared, stored and
formatted with `%s` in the code), `*time.Ticker` as a `Bool` recording
non-nilness, and `*string` as `Option String`.
-/

namespace Viteset

/-- The constant `VERSION = "1.0.0"` of src/client.go. -/
def VERSION : String := "1.0.0"

/-- The constant `DEFAULT_HOST = "https://api.viteset.com"` of src/client.go. -/
def DEFAULT_HOST : String := "https://api.viteset.com"

/-- The constant `DEFAULT_INTERVAL = time.Minute` of src/client.go, in nanoseconds. -/
def DEFAULT_INTERVAL : Nat := 60 * 1000000000

/-- The variable `userAgent = fmt.Sprintf("Viteset-Client-Go/%s", VERSION)`. -/
def userAgent : String := "Viteset-Client-Go/" ++ VERSION

/-- The `Client` struct of src/client.go.  `last []byte` is modelled as a
`String`, and `ticker *time.Ticker` by the `Bool` `ticker` recording whether
the pointer is non-nil (the only way the code ever inspects it). -/
structure Client where
  Secret : String
  Blob : String
  Interval : Nat
  Host : String
  last : String
  ticker : Bool
deriving Repr, DecidableEq

/-- The `Update` struct of src/client.go: `Value []byte; Error error`.
Each field is `none` exactly when the Go field is nil. -/
structure Update where
  value : Option String
  error : Option String
deriving Repr, DecidableEq

/-- The method `Active` (src/client.go line 91-93): `return c.ticker != nil`. -/
def Client.Active (c : Client) : Bool := c.ticker

/-- The method `Cancel` (src/client.go line 83-88): if active, stop the ticker and set
it to nil; otherwise do nothing.  Stopping the ticker is observable only
through `ticker` becoming nil. -/
def Client.Cancel (c : Client) : Client :=
  if c.Active then { c with ticker := false } else c

/-- The result of a call to `Subscribe` (src/client.go line 40-80).
`channel` records whether a non-nil channel was returned, `tickerCreated`
whether `time.NewTicker` was invoked, and `loopStarted` whether the polling
goroutine was launched; in the code both happen exactly on the success
path. -/
structure SubscribeResult where
  client : Client
  channel : Bool
  error : Option String
  tickerCreated : Bool
  loopStarted : Bool
deriving Repr, DecidableEq

/-- The method `Subscribe` (src/client.go line 40-80) up to the launch of the
goroutine: the three synchronous error checks, the two defaults, and the
creation of the ticker.  The goroutine itself is modelled separately by
`loopBody` / `runLoop`. -/
def Client.Subscribe (c : Client) : SubscribeResult :=
  if c.ticker then
    ⟨c, false, some "cannot re-subscribe with a closed Client", false, false⟩
  else if c.Blob = "" then
    ⟨c, false, some "missing blob name", false, false⟩
  else if c.Secret = "" then
    ⟨c, false, some "missing secret", false, false⟩
  else
    let c1 := if c.Host = "" then { c with Host := DEFAULT_HOST } else c
    let c2 := if c1.Interval = 0 then { c1 with Interval := DEFAULT_INTERVAL } else c1
    ⟨{ c2 with ticker := true }, true, none, true, true⟩

/-- The quadruple returned by `fetch` (src/client.go line 96):
`(same bool, data []byte, etag *string, err error)`. -/
structure FetchReturn where
  same : Bool
  data : Option String
  etag : Option String
  err : Option String
deriving Repr, DecidableEq

/-- An HTTP request as `fetch` constructs it: URL plus the headers added
with `req.Header.Add`. -/
structure Request where
  url : String
  headers : List (String × String)
deriving Repr, DecidableEq

/-- The request built by `fetch` (src/client.go line 98-106): URL
`{Host}/{Blob}`, `User-Agent`, `Authorization: Bearer {Secret}`, and
`If-None-Match` exactly when `lastEtag != nil`. -/
def Client.fetchRequest (c : Client) (lastEtag : Option String) : Request :=
  { url := c.Host ++ "/" ++ c.Blob
    headers :=
      [("User-Agent", userAgent), ("Authorization", "Bearer " ++ c.Secret)] ++
        (match lastEtag with
          | some e => [("If-None-Match", e)]
          | none => []) }

/-- What the HTTP round trip of one `fetch` call produced:
`client.Do` failed, `ioutil.ReadAll` failed, or a response arrived with a
status code, a body, and an optional ETag header (`Header.Get` returns `""`
when the header is absent, which `etagHeader = none` models). -/
inductive HttpResult where
  | transportErr (msg : String)
  | readErr (msg : String)
  | response (status : Nat) (body : String) (etagHeader : Option String)
deriving Repr, DecidableEq

/-- The error message built by `fetch` for an unexpected status code
(src/client.go line 120), naming the expected code 200, the actual code, and the
raw body text in backquotes. -/
def statusErrMsg (status : Nat) (body : String) : String :=
  "expected status code 200 but got " ++ toString status ++ ": `" ++ body ++ "`"

/-- The classification performed by `fetch` after the body has been read
(src/client.go line 107-123): transport and read errors are returned as
`err`; 304 yields `(true, nil, nil, nil)`; any status other than 200 yields
the `statusErrMsg` error; 200 yields `(false, body, &etag, nil)` with the
etag read from the `ETag` header (`""` when absent). -/
def fetchClassify (hr : HttpResult) : FetchReturn :=
  match hr with
  | .transportErr m => ⟨false, none, none, some m⟩
  | .readErr m => ⟨false, none, none, some m⟩
  | .response status body etagHeader =>
    if status = 304 then ⟨true, none, none, none⟩
    else if status ≠ 200 then ⟨false, none, none, some (statusErrMsg status body)⟩
    else ⟨false, some body, some (etagHeader.getD ""), none⟩

/-- The state the polling goroutine reads and writes per iteration
(src/client.go line 61-77): the client field `c.last` and the local
variable `lastEtag` of `Subscribe`. -/
structure LoopState where
  last : String
  lastEtag : Option String
deriving Repr, DecidableEq

/-- The initial loop state (src/client.go line 57, `var lastEtag *string = nil`): the loop starts
with the client's current `last` and a nil etag. -/
def initialLoopState (c : Client) : LoopState := ⟨c.last, none⟩

/-- One iteration of the goroutine body (src/client.go line 63-75), given
the quadruple the `fetch` call returned: on `err != nil` send
`Update{Error: err}`; on `same` send nothing; otherwise send
`Update{Value: data}` and update `c.last` and `lastEtag`. -/
def loopBody (s : LoopState) (fr : FetchReturn) : LoopState × Option Update :=
  match fr.err with
  | some e => (s, some ⟨none, some e⟩)
  | none =>
    if fr.same then (s, none)
    else (⟨fr.data.getD "", fr.etag⟩, some ⟨fr.data, none⟩)

/-- The goroutine run over a finite prefix of fetch results: the final
state and the list of `Update` values sent on the channel, in order. -/
def runLoop (s : LoopState) : List FetchReturn → LoopState × List Update
  | [] => (s, [])
  | fr :: rest =>
    let p := loopBody s fr
    let q := runLoop p.1 rest
    (q.1, p.2.toList ++ q.2)

/-- The `lastEtag` value supplied to each successive `fetch` call of the
loop (src/client.go line 64: `c.fetch(lastEtag)`). -/
def suppliedValidators (s : LoopState) : List FetchReturn → List (Option String)
  | [] => []
  | fr :: rest => s.lastEtag :: suppliedValidators (loopBody s fr).1 rest

/-- The fetch quadruple of a changed value, as `fetch` produces it for a
200 response with body `v` and ETag header `t`. -/
def changedFR (v t : String) : FetchReturn := ⟨false, some v, some t, none⟩

/-- The fetch quadruple of an unchanged value, as `fetch` produces it for a
304 response. -/
def unchangedFR : FetchReturn := ⟨true, none, none, none⟩

/-- The fetch quadruple of a failed fetch carrying error message `e`. -/
def failedFR (e : String) : FetchReturn := ⟨false, none, none, some e⟩

/-- Whether a request carries a header with the given name. -/
def hasHeader (r : Request) (name : String) : Bool :=
  r.headers.any fun p => p.1 == name

/-- Helper for C5: if the fetch at position `i` returned a changed value
with etag `t`, the validator supplied to fetch call `i + 1` is `some t`. -/
theorem suppliedValidators_get_succ (s : LoopState) (frs : List FetchReturn)
    (i : Nat) (v t : String)
    (hi : frs[i]? = some (changedFR v t)) (hlen : i + 1 < frs.length) :
    (suppliedValidators s frs)[i + 1]? = some (some t) := by
  induction frs generalizing s i with
  | nil => cases hi
  | cons fr rest ih =>
    cases i with
    | zero =>
      obtain rfl : fr = changedFR v t := by simpa using hi
      cases rest with
      | nil => simp at hlen
      | cons r rs => simp [suppliedValidators, loopBody, changedFR]
    | succ n =>
      have h1 : rest[n]? = some (changedFR v t) := by simpa using hi
      have h2 : n + 1 < rest.length := by simpa using hlen
      simpa [suppliedValidators] using ih (loopBody s fr).1 n h1 h2

/-- C1: the claim expects the fetch-outcome sequence
[Changed(A), Unchanged, Changed(B), Failed(e), Unchanged, Changed(C)] to
deliver exactly [value=A, error=e, value=C].  False: the loop
(src/client.go line 61-77) sends an Update for every changed fetch, so
value=B is also delivered.  Concrete refutation at A="A", B="B", C="C",
e="err". -/
theorem C1_counterexample :
    ¬ ((runLoop ⟨"", none⟩
          [changedFR "A" "t1", unchangedFR, changedFR "B" "t2",
           failedFR "err", unchangedFR, changedFR "C" "t3"]).2
        = [⟨some "A", none⟩, ⟨none, some "err"⟩, ⟨some "C", none⟩]) := by
  decide

/-- C1 (amended): for fetch outcomes
[Changed(A), Unchanged, Changed(B), Failed(e), Unchanged, Changed(C)] the
delivered Update sequence is exactly
[value=A, value=B, error=e, value=C], in that order: Unchanged ticks never
produce deliveries, every Changed tick does, and errors are delivered
without updating the cached value. -/
theorem C1_delivery_sequence (s : LoopState) (A B C e tA tB tC : String) :
    (runLoop s [changedFR A tA, unchangedFR, changedFR B tB,
                failedFR e, unchangedFR, changedFR C tC]).2
      = [⟨some A, none⟩, ⟨some B, none⟩, ⟨none, some e⟩, ⟨some C, none⟩] := rfl

/-- C2: the claim says Subscribe on a previously-canceled controller fails
with a configuration error.  False: `Cancel` sets the ticker to nil and
`Subscribe` rejects only when the ticker is non-nil, so after Cancel a
second Subscribe succeeds.  Concrete run: Subscribe succeeds, Cancel, and
the second Subscribe returns no error. -/
theorem C2_counterexample :
    ((Client.mk "s" "b" 0 "" "" false).Subscribe).error = none
  ∧ (((Client.mk "s" "b" 0 "" "" false).Subscribe.client.Cancel).Subscribe).error
      = none := by
  decide

/-- C2 (amended): Subscribe fails with the re-subscription error exactly
while the controller is live; after Cancel, a subsequent Subscribe on the
same instance is accepted again (given non-empty blob and secret), so
cancellation is not terminal for the instance. -/
theorem C2_resubscribe_after_cancel (c : Client)
    (hb : c.Blob ≠ "") (hs : c.Secret ≠ "") (ht : c.ticker = false) :
    (c.Subscribe).error = none
  ∧ ((c.Subscribe.client).Subscribe).error
      = some "cannot re-subscribe with a closed Client"
  ∧ (((c.Subscribe.client).Cancel).Subscribe).error = none := by
  obtain ⟨S, B, I, H, L, tk⟩ := c
  simp only at hb hs ht
  subst ht
  rcases eq_or_ne H "" with hH | hH <;> rcases eq_or_ne I 0 with hI | hI <;>
    simp [Client.Subscribe, Client.Cancel, Client.Active, hb, hs, hH, hI]

/-- Witness for C2: the amended theorem applied to a concrete client. -/
theorem C2_resubscribe_after_cancel_witness :
    (((Client.mk "s" "b" 0 "" "" false).Subscribe.client).Cancel).Subscribe.error
      = none :=
  (C2_resubscribe_after_cancel (Client.mk "s" "b" 0 "" "" false)
    (by decide) (by decide) rfl).2.2

/-- C3: the claim (and Cancel's own doc comment, src/client.go line 82)
says no Update is ever delivered after Cancel returns.  The code violates
this: the goroutine never consults the ticker or any cancellation flag
before sending, so a fetch in flight when Cancel returns still executes
`ch <- Update{Value: data}` and its Update is delivered when the channel is
next read.  Concretely: Cancel makes the client inactive, yet the loop body
for the in-flight 200 response still produces a delivery. -/
theorem C3_inflight_delivery_after_cancel :
    ((Client.mk "s" "b" 1 "h" "old" true).Cancel).Active = false
  ∧ (loopBody ⟨"old", some "e1"⟩ (fetchClassify (.response 200 "new" (some "e2")))).2
      = some ⟨some "new", none⟩ :=
  ⟨rfl, rfl⟩

/-- C4: fetch classification (src/client.go line 115-123): 304 yields
Unchanged with the body discarded, 200 yields Changed with the full body
and the ETag header's value, and any other status yields Failed with the
message naming the expected code 200, the actual code, and the raw body. -/
theorem C4_fetch_classification (status : Nat) (body : String) (et : Option String) :
    (status = 304 → fetchClassify (.response status body et) = ⟨true, none, none, none⟩)
  ∧ (status = 200 → fetchClassify (.response status body et)
      = ⟨false, some body, some (et.getD ""), none⟩)
  ∧ (status ≠ 304 → status ≠ 200 → fetchClassify (.response status body et)
      = ⟨false, none, none, some (statusErrMsg status body)⟩) :=
  ⟨fun h => by simp [fetchClassify, h],
   fun h => by simp [fetchClassify, h],
   fun h1 h2 => by simp [fetchClassify, h1, h2]⟩

/-- Witness for C4: a 500 response with body "oops" is classified as
Failed with the expected-vs-actual message. -/
theorem C4_fetch_classification_witness :
    fetchClassify (.response 500 "oops" none)
      = ⟨false, none, none, some (statusErrMsg 500 "oops")⟩ :=
  (C4_fetch_classification 500 "oops" none).2.2 (by decide) (by decide)

/-- C5: after a changed fetch returning etag `t` at position `i`, the
validator supplied to the next fetch call is `some t`; the If-None-Match
header is set exactly when a validator is present; and the first fetch of a
subscription is supplied no validator (Subscribe initializes `lastEtag` to
nil). -/
theorem C5_validator_roundtrip (s : LoopState) (frs : List FetchReturn)
    (i : Nat) (v t : String)
    (hi : frs[i]? = some (changedFR v t)) (hlen : i + 1 < frs.length) :
    (suppliedValidators s frs)[i + 1]? = some (some t)
  ∧ (∀ (c : Client) (le : Option String),
      hasHeader (c.fetchRequest le) "If-None-Match" = le.isSome)
  ∧ (∀ (c : Client) (fr : FetchReturn) (rest : List FetchReturn),
      (suppliedValidators (initialLoopState c) (fr :: rest))[0]? = some none) :=
  ⟨suppliedValidators_get_succ s frs i v t hi hlen,
   fun _ le => by cases le <;> rfl,
   fun _ _ _ => by simp [suppliedValidators, initialLoopState]⟩

/-- Witness for C5: a changed fetch with etag "t" at position 0 makes the
second fetch call receive validator `some "t"`. -/
theorem C5_validator_roundtrip_witness :
    (suppliedValidators ⟨"", none⟩ [changedFR "v" "t", unchangedFR])[1]?
      = some (some "t") :=
  (C5_validator_roundtrip ⟨"", none⟩ [changedFR "v" "t", unchangedFR] 0 "v" "t"
    (by decide) (by decide)).1

/-- C6: per-tick frame condition (src/client.go line 61-77): a failed fetch
delivers the error and leaves the cached value and validator untouched; an
unchanged fetch delivers nothing and leaves them untouched; the loop state
changes only on a changed fetch (err nil and same false). -/
theorem C6_cache_frame (s : LoopState) (fr : FetchReturn) :
    (∀ e, fr.err = some e → loopBody s fr = (s, some ⟨none, some e⟩))
  ∧ (fr.err = none → fr.same = true → loopBody s fr = (s, none))
  ∧ ((loopBody s fr).1 ≠ s → fr.err = none ∧ fr.same = false) := by
  obtain ⟨same, data, etag, err⟩ := fr
  refine ⟨fun e he => ?_, fun h1 h2 => ?_, ?_⟩
  · subst he; rfl
  · subst h1; subst h2; rfl
  · cases err with
    | some e => exact fun h => absurd rfl h
    | none =>
      cases same with
      | true => exact fun h => absurd rfl h
      | false => exact fun _ => ⟨rfl, rfl⟩

/-- Witness for C6: a failed fetch with message "boom" delivers the error
Update and leaves the state `⟨"old", some "t0"⟩` unchanged. -/
theorem C6_cache_frame_witness :
    loopBody ⟨"old", some "t0"⟩ (failedFR "boom")
      = (⟨"old", some "t0"⟩, some ⟨none, some "boom"⟩) :=
  (C6_cache_frame ⟨"old", some "t0"⟩ (failedFR "boom")).1 "boom" rfl

/-- C7: Subscribe with an empty blob name or an empty secret returns a
non-nil error synchronously, creates no ticker and starts no polling
goroutine (src/client.go line 44-49). -/
theorem C7_empty_config_rejected (c : Client) (h : c.Blob = "" ∨ c.Secret = "") :
    (c.Subscribe).error ≠ none
  ∧ (c.Subscribe).tickerCreated = false
  ∧ (c.Subscribe).loopStarted = false := by
  unfold Client.Subscribe
  rcases h with h | h <;> split_ifs <;> simp_all

/-- Witness for C7: the empty client is rejected. -/
theorem C7_empty_config_rejected_witness :
    ((Client.mk "" "" 0 "" "" false).Subscribe).error ≠ none :=
  (C7_empty_config_rejected (Client.mk "" "" 0 "" "" false) (Or.inl rfl)).1

/-- C8: Cancel on a non-active client (never subscribed, or already
canceled) is a no-op returning the client unchanged, Cancel after any
Cancel is also a no-op, and after any Cancel the client is not Active
(src/client.go line 83-93). -/
theorem C8_cancel_noop_inactive (c : Client) :
    (c.Active = false → c.Cancel = c)
  ∧ (c.Cancel).Active = false
  ∧ (c.Cancel).Cancel = c.Cancel := by
  unfold Client.Cancel Client.Active
  cases h : c.ticker <;> simp [h]

/-- Witness for C8: Cancel on a concrete never-subscribed client is the
identity. -/
theorem C8_cancel_noop_inactive_witness :
    (Client.mk "s" "b" 0 "h" "" false).Cancel = Client.mk "s" "b" 0 "h" "" false :=
  (C8_cancel_noop_inactive (Client.mk "s" "b" 0 "h" "" false)).1 rfl

/-- C9: change detection is purely status-driven: a 200 response is
classified changed (same = false) even when its body equals the cached
value, and two consecutive 200 responses with that identical body each
deliver the value again. -/
theorem C9_status_driven_redelivery (s : LoopState) (v t : String)
    (_hv : s.last = v) :
    (fetchClassify (.response 200 v (some t))).same = false
  ∧ (runLoop s [fetchClassify (.response 200 v (some t)),
                fetchClassify (.response 200 v (some t))]).2
      = [⟨some v, none⟩, ⟨some v, none⟩] :=
  ⟨rfl, rfl⟩

/-- Witness for C9: a server ignoring If-None-Match re-sends "same-bytes";
both ticks deliver it even though it equals the cached value. -/
theorem C9_status_driven_redelivery_witness :
    (runLoop ⟨"same-bytes", none⟩
        [fetchClassify (.response 200 "same-bytes" (some "t")),
         fetchClassify (.response 200 "same-bytes" (some "t"))]).2
      = [⟨some "same-bytes", none⟩, ⟨some "same-bytes", none⟩] :=
  (C9_status_driven_redelivery ⟨"same-bytes", none⟩ "same-bytes" "t" rfl).2

/-- C10: whenever Subscribe returns an error, the client is returned
entirely unchanged (in particular the Host and Interval defaults are not
applied), the channel is nil, no ticker is created and no goroutine is
started (src/client.go line 40-59). -/
theorem C10_error_leaves_state_unchanged (c : Client)
    (h : (c.Subscribe).error ≠ none) :
    (c.Subscribe).client = c
  ∧ (c.Subscribe).channel = false
  ∧ (c.Subscribe).tickerCreated = false
  ∧ (c.Subscribe).loopStarted = false := by
  unfold Client.Subscribe at *
  split_ifs at * <;> simp_all

/-- Witness for C10: an already-active client with non-default Host and
Interval is rejected and returned unchanged. -/
theorem C10_error_leaves_state_unchanged_witness :
    ((Client.mk "" "" 5 "x" "" true).Subscribe).client
      = Client.mk "" "" 5 "x" "" true :=
  (C10_error_leaves_state_unchanged (Client.mk "" "" 5 "x" "" true)
    (by decide)).1

end Viteset
